import Mathlib

/-!
Verification of the CVD-Image-Recolorization client (`src/App.tsx`) and of the
color-correction engine described in the design document.

The repository's TypeScript client is embedded shallowly: React state becomes a
`ClientState` record, each handler of `App.tsx` becomes a pure state
transformer, and the `setInterval` streaming loop becomes a `tickEmit` function
over an environment record describing the DOM/socket facts the callback reads.
JavaScript closure capture is modelled explicitly: the interval callback
created by `startVideoStreaming` captures the `deficiency` value current at the
moment of the call, so the captured value is stored in the interval record.

The Python processing backend (`testing.py` / `xanax.py`) is not part of the
frontend sources; the DeficiencyModel and Corrector are modelled from the
design document (sections 4.2 and 4.3) over exact rationals.
-/

namespace CVD

/-- The three `<option value=...>` strings of the deficiency `<select>` in
`App.tsx` (lines 649-651). -/
def deficiencyOptions : List String :=
  ["protanopia", "deuteranopia", "tritanopia"]

/-- The interval registered by `startVideoStreaming` via `window.setInterval`.
`capturedDeficiency` is the value of the `deficiency` state variable captured
by the callback's closure at the time `startVideoStreaming` ran; `delayMs` is
the period passed to `setInterval`. -/
structure StreamInterval where
  capturedDeficiency : String
  delayMs : Nat
deriving Repr, DecidableEq

/-- The React state of `App` that the verified handlers read and write
(`useState` hooks and the interval ref of `App.tsx` lines 4-18). -/
structure ClientState where
  deficiency : String
  isVideoMode : Bool
  isVideoStreaming : Bool
  processedVideoFrame : Option String
  errorMessage : Option String
  capturedImage : Option String
  previewURL : Option String
  imageURL : Option String
  cameraActive : Bool
  streamInterval : Option StreamInterval
deriving Repr, DecidableEq

/-- Initial `useState` values of `App.tsx`: `deficiency` starts as
`"deuteranopia"`, everything else empty/false. -/
def initialState : ClientState :=
  { deficiency := "deuteranopia"
    isVideoMode := false
    isVideoStreaming := false
    processedVideoFrame := none
    errorMessage := none
    capturedImage := none
    previewURL := none
    imageURL := none
    cameraActive := false
    streamInterval := none }

/-- `startVideoStreaming` (`App.tsx` lines 106-157): sets `isVideoStreaming`,
clears any previous interval and registers a new 100 ms interval whose callback
closes over the current `deficiency` value. -/
def startVideoStreaming (s : ClientState) : ClientState :=
  { s with
    isVideoStreaming := true
    streamInterval := some { capturedDeficiency := s.deficiency, delayMs := 100 } }

/-- `stopVideoStreaming` (`App.tsx` lines 159-167): clears the streaming flag,
resets the processed frame and clears the interval ref. -/
def stopVideoStreaming (s : ClientState) : ClientState :=
  { s with
    isVideoStreaming := false
    processedVideoFrame := none
    streamInterval := none }

/-- The `onChange` handler of the deficiency `<select>` (`App.tsx` lines
634-639): stores the new value and, when in video mode and streaming, resets
the processed frame.  It does NOT touch the running interval. -/
def onDeficiencyChange (s : ClientState) (v : String) : ClientState :=
  { s with
    deficiency := v
    processedVideoFrame :=
      if s.isVideoMode && s.isVideoStreaming then none else s.processedVideoFrame }

/-- `resetCapture` (`App.tsx` lines 229-234). -/
def resetCapture (s : ClientState) : ClientState :=
  { s with
    capturedImage := none
    previewURL := none
    imageURL := none
    errorMessage := none }

/-- `toggleVideoMode` (`App.tsx` lines 97-104): flips the mode, resets capture
state, and stops streaming when it was active. -/
def toggleVideoMode (s : ClientState) : ClientState :=
  let s1 := resetCapture { s with isVideoMode := !s.isVideoMode }
  if s.isVideoStreaming then stopVideoStreaming s1 else s1

/-- `captureImage`'s `toBlob` callback (`App.tsx` lines 179-188): stores the
captured file and its preview URL and hides the camera. -/
def captureImage (s : ClientState) (file url : String) : ClientState :=
  { s with
    capturedImage := some file
    previewURL := some url
    cameraActive := false }

/-- The facts the streaming interval callback reads from its environment on one
tick: DOM element presence, socket presence/connectivity, the video element's
ready state, its reported dimensions, canvas context availability, whether
`drawImage`/`toDataURL` complete without throwing, and the data URL produced by
`canvas.toDataURL("image/jpeg", 0.8)`. -/
structure TickEnv where
  videoElementPresent : Bool
  socketPresent : Bool
  socketConnected : Bool
  hasEnoughData : Bool
  videoWidth : Nat
  videoHeight : Nat
  contextPresent : Bool
  drawSucceeds : Bool
  frameData : String
deriving Repr, DecidableEq

/-- The JPEG data-URL header the callback requires of `frameData`
(`App.tsx` line 140). -/
def jpegHeader : String := "data:image/jpeg;base64,"

/-- `frameData.startsWith("data:image/jpeg;base64,")` (`App.tsx` line 140),
expressed over the underlying character lists so that concrete traces evaluate
inside the kernel. -/
def startsWithJpegHeader (s : String) : Bool :=
  jpegHeader.data.isPrefixOf s.data

/-- `const width = videoElement.videoWidth || 640` — JavaScript `||` replaces a
zero (falsy) width by 640. -/
def canvasWidth (e : TickEnv) : Nat :=
  if e.videoWidth = 0 then 640 else e.videoWidth

/-- `const height = videoElement.videoHeight || 480`. -/
def canvasHeight (e : TickEnv) : Nat :=
  if e.videoHeight = 0 then 480 else e.videoHeight

/-- A client→server message payload, as the ordered field list passed to
`socket.emit`.  Using a key/value list keeps the exact shape of the object
literal `{ frame: frameData, deficiency: deficiency }` observable. -/
abbrev EmitPayload := List (String × String)

/-- The body of the interval callback registered by `startVideoStreaming`
(`App.tsx` lines 113-156), as a function from the client state and the tick
environment to the optional `video_frame` payload emitted on that tick.  The
callback only runs while an interval is registered; it performs every guard of
the source in order and emits `{ frame, deficiency }` where `deficiency` is the
closure-captured value.  The callback calls no state setter, so the client
state is unchanged by a tick. -/
def tickEmit (s : ClientState) (e : TickEnv) : Option EmitPayload :=
  match s.streamInterval with
  | none => none
  | some iv =>
    if e.videoElementPresent && e.socketPresent && e.socketConnected
        && e.hasEnoughData then
      if canvasWidth e = 0 || canvasHeight e = 0 then none
      else if e.contextPresent then
        if e.drawSucceeds then
          if startsWithJpegHeader e.frameData then
            some [("frame", e.frameData), ("deficiency", iv.capturedDeficiency)]
          else none
        else none
      else none
    else none

/-- The `socket.on("error", ...)` handler (`App.tsx` lines 52-55): records the
payload's `message` field as the visible error and nothing else. -/
def onSocketError (s : ClientState) (message : String) : ClientState :=
  { s with errorMessage := some message }

/-- The `socket.on("processed_frame", ...)` handler (`App.tsx` lines 48-50). -/
def onProcessedFrame (s : ClientState) (frame : String) : ClientState :=
  { s with processedVideoFrame := some frame }

/-- The JSON body of a failed still-image response as the client reads it:
`handleProcess` looks only at the `error` field, but a body may also carry a
`message` field (the design document's name for it). -/
structure ErrorBody where
  errorField : Option String
  messageField : Option String
deriving Repr, DecidableEq

/-- `errorData.error || "Failed to process image"` (`App.tsx` line 213):
JavaScript `||` falls back when the field is absent or the empty string. -/
def stillErrorText (b : ErrorBody) : String :=
  match b.errorField with
  | some e => if e = "" then "Failed to process image" else e
  | none => "Failed to process image"

/-- The `catch` branch of `handleProcess` for a non-ok response (`App.tsx`
lines 211-223): the thrown `Error`'s message becomes `errorMessage`. -/
def onStillFailure (s : ClientState) (b : ErrorBody) : ClientState :=
  { s with errorMessage := some (stillErrorText b) }

/-- The HTTP request `handleProcess` builds (`App.tsx` lines 199-209): path
`/correct/<deficiency>`, query `strength=1.0`, and a form body with the single
`image` entry. -/
structure StillRequest where
  pathDeficiency : String
  strengthQuery : String
  formEntries : List (String × String)
deriving Repr, DecidableEq

/-- `handleProcess` (`App.tsx` lines 192-227) up to the network call: returns
`none` (no request) when no image is captured, otherwise the request with the
current deficiency, the literal `strength=1.0` query, and exactly the one
`formData.append("image", capturedImage)` entry. -/
def handleProcess (s : ClientState) : Option StillRequest :=
  match s.capturedImage with
  | none => none
  | some img =>
    some { pathDeficiency := s.deficiency
           strengthQuery := "1.0"
           formEntries := [("image", img)] }

/-- The numeric value of the strength query parameter the client always sends
(`strength=1.0`). -/
def clientStrength : ℚ := 1

/-- The discrete events driving the client model: button clicks, the select's
`onChange`, the capture callback, socket events, a still-request failure, and
one firing of the streaming interval. -/
inductive ClientEvent where
  | start
  | stop
  | toggleMode
  | select (v : String)
  | capture (file url : String)
  | socketError (message : String)
  | processedFrame (frame : String)
  | stillFailure (b : ErrorBody)
  | tick (e : TickEnv)
deriving Repr, DecidableEq

/-- One step of the client: the next state and the `video_frame` payload
emitted during the step, if any.  Only a `tick` can emit. -/
def stepClient (s : ClientState) : ClientEvent → ClientState × Option EmitPayload
  | .start => (startVideoStreaming s, none)
  | .stop => (stopVideoStreaming s, none)
  | .toggleMode => (toggleVideoMode s, none)
  | .select v => (onDeficiencyChange s v, none)
  | .capture f u => (captureImage s f u, none)
  | .socketError m => (onSocketError s m, none)
  | .processedFrame f => (onProcessedFrame s f, none)
  | .stillFailure b => (onStillFailure s b, none)
  | .tick e => (s, tickEmit s e)

/-- Run a list of events from a state, collecting the emitted `video_frame`
payloads in order. -/
def runClient (s : ClientState) : List ClientEvent → ClientState × List EmitPayload
  | [] => (s, [])
  | ev :: evs =>
    let (s1, out) := stepClient s ev
    let (s2, outs) := runClient s1 evs
    (s2, (out.toList) ++ outs)

/-- An event the UI can actually produce: the select only offers the three
fixed option values; every other event is unrestricted. -/
def uiEvent : ClientEvent → Prop
  | .select v => v ∈ deficiencyOptions
  | _ => True

instance : DecidablePred uiEvent := by
  intro ev
  cases ev <;> simp [uiEvent] <;> infer_instance

/-- Firing times of a `window.setInterval` callback with the given interval:
the k-th firing happens (k+1)·delay milliseconds after registration. -/
def tickTime (iv : StreamInterval) (k : Nat) : Nat :=
  (k + 1) * iv.delayMs

/-- A tick environment in which every guard of the interval callback holds:
video element present, socket connected, `HAVE_ENOUGH_DATA`, 640×480 video and
a working canvas context producing the given data URL. -/
def envWithFrame (fd : String) : TickEnv :=
  { videoElementPresent := true
    socketPresent := true
    socketConnected := true
    hasEnoughData := true
    videoWidth := 640
    videoHeight := 480
    contextPresent := true
    drawSucceeds := true
    frameData := fd }

/-! ### The color engine, modelled from the design document

The numeric backend (`testing.py` / `xanax.py`) is not among the frontend
sources, so DeficiencyModel (§4.2) and Corrector (§4.3) are modelled from the
design document over exact rationals; exact equality over `ℚ` implies equality
within any floating tolerance ε. -/

/-- Modelled from the spec: §3, a color in the physiological cone-response
space (LMS), a triple of channel intensities; the backend sources
(`testing.py` / `xanax.py`) are not in the repository snapshot. -/
structure ConeColor where
  l : ℚ
  m : ℚ
  s : ℚ
deriving Repr, DecidableEq

/-- Modelled from the spec: §3, the closed enumeration of deficiency types. -/
inductive DeficiencyType where
  | protan
  | deutan
  | tritan
deriving Repr, DecidableEq

/-- Modelled from the spec: §4.2, `simulate` projects a cone color onto the
confusion plane of the deficiency: the impaired channel is replaced by a fixed
linear combination of the two channels the viewer can still resolve (the
combination coefficients are the standard Viénot/Brettel dichromat projection
constants, written as exact rationals), and those two channels are preserved
unchanged. -/
def simulate (c : ConeColor) : DeficiencyType → ConeColor
  | .protan => { l := (202344 / 100000 : ℚ) * c.m - (252581 / 100000 : ℚ) * c.s
                 m := c.m
                 s := c.s }
  | .deutan => { l := c.l
                 m := (494207 / 1000000 : ℚ) * c.l + (1248270 / 1000000 : ℚ) * c.s
                 s := c.s }
  | .tritan => { l := c.l
                 m := c.m
                 s := (-395913 / 1000000 : ℚ) * c.l + (801109 / 1000000 : ℚ) * c.m }

/-- Clamp a rational channel intensity into the valid range [0, 1]. -/
def clamp01 (x : ℚ) : ℚ := max 0 (min 1 x)

/-- Componentwise clamp of a cone color into the bounded color cube (§4.3:
values are clamped after blending, clipped never wrapped). -/
def clampColor (c : ConeColor) : ConeColor :=
  { l := clamp01 c.l, m := clamp01 c.m, s := clamp01 c.s }

/-- A cone color inside the bounded color cube [0,1]³ (§3: channel
intensities range over [0,1]). -/
def inGamut (c : ConeColor) : Prop :=
  0 ≤ c.l ∧ c.l ≤ 1 ∧ 0 ≤ c.m ∧ c.m ≤ 1 ∧ 0 ≤ c.s ∧ c.s ≤ 1

instance (c : ConeColor) : Decidable (inGamut c) := by
  unfold inGamut; infer_instance

/-- Modelled from the spec: §4.3, the Corrector (daltonizer).  The perceptual
error `original - simulated` is redistributed, scaled by the strength factor,
into the two channels the deficiency does not impair (each safe channel
receives its own error component plus a fixed 7/10 share of the impaired
channel's error), the impaired channel is left unchanged, and the blended
result is clamped to the valid range. -/
def correct (orig simd : ConeColor) (d : DeficiencyType) (strength : ℚ) :
    ConeColor :=
  let el := orig.l - simd.l
  let em := orig.m - simd.m
  let es := orig.s - simd.s
  let blended : ConeColor :=
    match d with
    | .protan =>
      { l := orig.l
        m := orig.m + strength * (em + (7 / 10 : ℚ) * el)
        s := orig.s + strength * (es + (7 / 10 : ℚ) * el) }
    | .deutan =>
      { l := orig.l + strength * (el + (7 / 10 : ℚ) * em)
        m := orig.m
        s := orig.s + strength * (es + (7 / 10 : ℚ) * em) }
    | .tritan =>
      { l := orig.l + strength * (el + (7 / 10 : ℚ) * es)
        m := orig.m + strength * (em + (7 / 10 : ℚ) * es)
        s := orig.s }
  clampColor blended

/-! ### Helper lemmas -/

/-- Clamping is the identity on colors already inside the color cube. -/
theorem clampColor_of_inGamut (c : ConeColor) (h : inGamut c) : clampColor c = c := by
  obtain ⟨h1, h2, h3, h4, h5, h6⟩ := h
  unfold clampColor clamp01
  rw [min_eq_right h2, max_eq_right h1, min_eq_right h4, max_eq_right h3,
    min_eq_right h6, max_eq_right h5]

/-- A step on an event other than `start` cannot create an interval and emits
nothing when no interval is registered. -/
theorem stepClient_no_interval (s : ClientState) (ev : ClientEvent)
    (hs : s.streamInterval = none) (hev : ev ≠ ClientEvent.start) :
    (stepClient s ev).1.streamInterval = none ∧ (stepClient s ev).2 = none := by
  cases ev with
  | start => exact absurd rfl hev
  | stop => exact ⟨rfl, rfl⟩
  | toggleMode =>
    refine ⟨?_, rfl⟩
    unfold stepClient toggleVideoMode
    by_cases hstr : s.isVideoStreaming <;>
      simp [hstr, stopVideoStreaming, resetCapture, hs]
  | select v => exact ⟨hs, rfl⟩
  | capture f u => exact ⟨hs, rfl⟩
  | socketError m => exact ⟨hs, rfl⟩
  | processedFrame f => exact ⟨hs, rfl⟩
  | stillFailure b => exact ⟨hs, rfl⟩
  | tick e => exact ⟨hs, by simp [stepClient, tickEmit, hs]⟩

/-- Without a `start` event, a client with no registered interval emits no
`video_frame` payload along any event sequence. -/
theorem runClient_no_interval_silent (evs : List ClientEvent) :
    ∀ s : ClientState, s.streamInterval = none →
      ClientEvent.start ∉ evs → (runClient s evs).2 = [] := by
  induction evs with
  | nil => intro s _ _; rfl
  | cons ev evs ih =>
    intro s hs hmem
    have hev : ev ≠ ClientEvent.start := fun h => hmem (h ▸ List.mem_cons_self ev evs)
    have hstep := stepClient_no_interval s ev hs hev
    have hmem' : ClientEvent.start ∉ evs := fun h => hmem (List.mem_cons_of_mem ev h)
    show ((stepClient s ev).2.toList ++ (runClient (stepClient s ev).1 evs).2) = []
    rw [hstep.2, ih (stepClient s ev).1 hstep.1 hmem']
    rfl

/-- A UI event keeps the selected deficiency inside the option list. -/
theorem stepClient_deficiency_mem (s : ClientState) (ev : ClientEvent)
    (hui : uiEvent ev) (h : s.deficiency ∈ deficiencyOptions) :
    (stepClient s ev).1.deficiency ∈ deficiencyOptions := by
  cases ev with
  | select v => exact hui
  | toggleMode =>
    unfold stepClient toggleVideoMode
    by_cases hstr : s.isVideoStreaming <;>
      simp [hstr, stopVideoStreaming, resetCapture, h]
  | start => exact h
  | stop => exact h
  | capture f u => exact h
  | socketError m => exact h
  | processedFrame f => exact h
  | stillFailure b => exact h
  | tick e => exact h

/-- Along any UI-producible run, the selected deficiency stays inside the
option list. -/
theorem runClient_deficiency_mem (evs : List ClientEvent) :
    ∀ s : ClientState, (∀ ev ∈ evs, uiEvent ev) →
      s.deficiency ∈ deficiencyOptions →
      (runClient s evs).1.deficiency ∈ deficiencyOptions := by
  induction evs with
  | nil => intro s _ h; exact h
  | cons ev evs ih =>
    intro s hui h
    have h1 := stepClient_deficiency_mem s ev (hui ev (List.mem_cons_self ev evs)) h
    have hui' : ∀ ev' ∈ evs, uiEvent ev' := fun ev' hm => hui ev' (List.mem_cons_of_mem ev hm)
    exact ih (stepClient s ev).1 hui' h1

/-! ### Claim theorems -/

/-- Claim C7: for every cone color and every deficiency type, applying the
confusion-plane projection twice gives the same result as applying it once —
the DeficiencyModel's `simulate` is idempotent (exactly over `ℚ`, hence within
any floating tolerance ε). -/
theorem simulate_idempotent (c : ConeColor) (d : DeficiencyType) :
    simulate (simulate c d) d = simulate c d := by
  cases d <;> rfl

/-- Claim C8: at strength 0 the Corrector is the identity — for every in-gamut
cone color and every deficiency type, `correct(C, simulate(C,D), D, 0)` returns
the original color unchanged. -/
theorem correct_strength_zero (c : ConeColor) (d : DeficiencyType)
    (h : inGamut c) : correct c (simulate c d) d 0 = c := by
  have hc := clampColor_of_inGamut c h
  cases d <;> simpa [correct] using hc

/-- Witness for claim C8 at the in-gamut color (1, 0, 0) and deuteranopia. -/
theorem correct_strength_zero_witness :
    correct ⟨1, 0, 0⟩ (simulate ⟨1, 0, 0⟩ .deutan) .deutan 0 = ⟨1, 0, 0⟩ :=
  correct_strength_zero ⟨1, 0, 0⟩ .deutan (by decide)

/-- Claim C5: the streaming `error` handler records the received message as
the visible error and nothing else — the streaming flag and the registered
interval are untouched, and every subsequent tick emits exactly what it would
have emitted before the event. -/
theorem onSocketError_nonfatal (s : ClientState) (m : String) :
    (onSocketError s m).errorMessage = some m
    ∧ (onSocketError s m).isVideoStreaming = s.isVideoStreaming
    ∧ (onSocketError s m).streamInterval = s.streamInterval
    ∧ ∀ e : TickEnv, tickEmit (onSocketError s m) e = tickEmit s e :=
  ⟨rfl, rfl, rfl, fun _ => rfl⟩

/-- Claim C6: `startVideoStreaming` registers the frame-capture callback with
a fixed 100 ms period, and any two distinct firings of that interval are at
least 100 ms apart — at most one frame-capture attempt per 100 ms (~10 fps). -/
theorem streaming_interval_100ms (s : ClientState) (j k : Nat) (hjk : j ≠ k) :
    (startVideoStreaming s).streamInterval
      = some { capturedDeficiency := s.deficiency, delayMs := 100 }
    ∧ 100 ≤ Nat.dist (tickTime ⟨s.deficiency, 100⟩ j) (tickTime ⟨s.deficiency, 100⟩ k) := by
  refine ⟨rfl, ?_⟩
  simp only [tickTime, Nat.dist]
  omega

/-- Witness for claim C6 at the initial state and the first two firings. -/
theorem streaming_interval_100ms_witness :
    (startVideoStreaming initialState).streamInterval
      = some { capturedDeficiency := "deuteranopia", delayMs := 100 }
    ∧ 100 ≤ Nat.dist (tickTime ⟨"deuteranopia", 100⟩ 0) (tickTime ⟨"deuteranopia", 100⟩ 1) :=
  streaming_interval_100ms initialState 0 1 (by decide)

/-- Claim C1, evaluated at the failing input: the client starts streaming with
"deuteranopia" selected, the user switches the select to "protanopia", and the
next interval tick still emits a `video_frame` payload carrying "deuteranopia"
— the interval callback's closure captured the deficiency current at
`startVideoStreaming` time, and the select's `onChange` neither updates nor
recreates the running interval, so the change never reaches the emitted
frames. -/
theorem videoFrame_emits_stale_deficiency :
    (runClient initialState
      [.toggleMode, .start, .select "protanopia",
        .tick (envWithFrame "data:image/jpeg;base64,AAAA")]).1.deficiency
      = "protanopia"
    ∧ (runClient initialState
      [.toggleMode, .start, .select "protanopia",
        .tick (envWithFrame "data:image/jpeg;base64,AAAA")]).2
      = [[("frame", "data:image/jpeg;base64,AAAA"), ("deficiency", "deuteranopia")]]
    ∧ ("deuteranopia" : String) ≠ "protanopia" :=
  ⟨rfl, rfl, by decide⟩

/-- Counterexample to claim C2 as stated: after streaming starts with
"tritanopia" selected and the user switches to "deuteranopia", the emitted
payload's deficiency is "tritanopia" while the currently selected selector is
"deuteranopia", so the payload does not carry the currently selected
selector. -/
theorem videoFrame_payload_not_current_selection :
    (runClient initialState
      [.toggleMode, .select "tritanopia", .start, .select "deuteranopia",
        .tick (envWithFrame "data:image/jpeg;base64,BBBB")]).1.deficiency
      = "deuteranopia"
    ∧ (runClient initialState
      [.toggleMode, .select "tritanopia", .start, .select "deuteranopia",
        .tick (envWithFrame "data:image/jpeg;base64,BBBB")]).2
      = [[("frame", "data:image/jpeg;base64,BBBB"), ("deficiency", "tritanopia")]]
    ∧ ("tritanopia" : String) ≠ "deuteranopia" :=
  ⟨rfl, rfl, by decide⟩

/-- Claim C2 (amended): every payload emitted on the `video_frame` channel has
exactly the shape `{frame, deficiency}` — the keys are precisely `frame` then
`deficiency`, so no `strength` key ever appears — the frame is a JPEG data-URL
string, and the deficiency is the selector captured by the interval callback's
closure when streaming started. -/
theorem videoFrame_payload_shape (s : ClientState) (iv : StreamInterval)
    (e : TickEnv) (p : EmitPayload)
    (hiv : s.streamInterval = some iv) (hp : tickEmit s e = some p) :
    p = [("frame", e.frameData), ("deficiency", iv.capturedDeficiency)]
    ∧ startsWithJpegHeader e.frameData = true
    ∧ p.map Prod.fst = ["frame", "deficiency"] := by
  unfold tickEmit at hp
  rw [hiv] at hp
  split_ifs at hp with h1 h2 h3 h4 h5
  all_goals injection hp with h
  subst h
  exact ⟨rfl, h5, rfl⟩

/-- Witness for claim C2 (amended): a tick right after `startVideoStreaming`
on the initial state. -/
theorem videoFrame_payload_shape_witness :
    ([("frame", "data:image/jpeg;base64,Wg=="), ("deficiency", "deuteranopia")]
        : EmitPayload)
      = [("frame", (envWithFrame "data:image/jpeg;base64,Wg==").frameData),
          ("deficiency",
            (StreamInterval.mk "deuteranopia" 100).capturedDeficiency)]
    ∧ startsWithJpegHeader (envWithFrame "data:image/jpeg;base64,Wg==").frameData
        = true
    ∧ ([("frame", "data:image/jpeg;base64,Wg=="), ("deficiency", "deuteranopia")]
        : EmitPayload).map Prod.fst = ["frame", "deficiency"] :=
  videoFrame_payload_shape (startVideoStreaming initialState)
    (StreamInterval.mk "deuteranopia" 100)
    (envWithFrame "data:image/jpeg;base64,Wg==")
    [("frame", "data:image/jpeg;base64,Wg=="), ("deficiency", "deuteranopia")]
    rfl rfl

/-- Claim C9: a tick emits a `video_frame` payload only when an interval is
registered, the socket exists and is connected, the video element reports
`HAVE_ENOUGH_DATA`, the canvas dimensions are strictly positive and the
captured frame is a JPEG data URL; and a tick never changes the client state,
so a failing tick never terminates the session. -/
theorem tick_emits_only_when_ready (s : ClientState) (e : TickEnv) :
    (∀ p : EmitPayload, tickEmit s e = some p →
      s.streamInterval.isSome = true
      ∧ e.socketPresent = true ∧ e.socketConnected = true
      ∧ e.hasEnoughData = true
      ∧ 0 < canvasWidth e ∧ 0 < canvasHeight e
      ∧ startsWithJpegHeader e.frameData = true)
    ∧ (stepClient s (.tick e)).1 = s := by
  refine ⟨?_, rfl⟩
  intro p hp
  unfold tickEmit at hp
  cases hs : s.streamInterval with
  | none => rw [hs] at hp; exact absurd hp (by simp)
  | some iv =>
    rw [hs] at hp
    split_ifs at hp with h1 h2 h3 h4 h5
    simp_all
    omega

/-- Witness for claim C9: a fully ready tick right after streaming starts. -/
theorem tick_emits_only_when_ready_witness :
    (startVideoStreaming initialState).streamInterval.isSome = true
    ∧ (envWithFrame "data:image/jpeg;base64,Qg==").socketPresent = true
    ∧ (envWithFrame "data:image/jpeg;base64,Qg==").socketConnected = true
    ∧ (envWithFrame "data:image/jpeg;base64,Qg==").hasEnoughData = true
    ∧ 0 < canvasWidth (envWithFrame "data:image/jpeg;base64,Qg==")
    ∧ 0 < canvasHeight (envWithFrame "data:image/jpeg;base64,Qg==")
    ∧ startsWithJpegHeader (envWithFrame "data:image/jpeg;base64,Qg==").frameData
        = true :=
  (tick_emits_only_when_ready (startVideoStreaming initialState)
      (envWithFrame "data:image/jpeg;base64,Qg==")).1
    [("frame", "data:image/jpeg;base64,Qg=="), ("deficiency", "deuteranopia")]
    rfl

/-- Claim C3: along any run of UI-producible events, whenever `handleProcess`
issues a still-image request, its path deficiency is one of the three offered
selectors, its strength query is the literal `1.0` — a numeric value inside
[0, 1] — and its form body carries exactly one `image` entry. -/
theorem handleProcess_request_valid (evs : List ClientEvent)
    (hui : ∀ ev ∈ evs, uiEvent ev) (r : StillRequest)
    (hr : handleProcess (runClient initialState evs).1 = some r) :
    r.pathDeficiency ∈ deficiencyOptions
    ∧ r.strengthQuery = "1.0"
    ∧ 0 ≤ clientStrength ∧ clientStrength ≤ 1
    ∧ ∃ img, r.formEntries = [("image", img)] := by
  have hmem : (runClient initialState evs).1.deficiency ∈ deficiencyOptions :=
    runClient_deficiency_mem evs initialState hui (by decide)
  unfold handleProcess at hr
  cases himg : (runClient initialState evs).1.capturedImage with
  | none => rw [himg] at hr; exact absurd hr (by simp)
  | some img =>
    rw [himg] at hr
    injection hr with h
    subst h
    exact ⟨hmem, rfl, by decide, by decide, img, rfl⟩

/-- Witness for claim C3: capture a photo, switch the select to protanopia,
then process. -/
theorem handleProcess_request_valid_witness :
    ("protanopia" : String) ∈ deficiencyOptions
    ∧ ("1.0" : String) = "1.0"
    ∧ 0 ≤ clientStrength ∧ clientStrength ≤ 1
    ∧ ∃ img, ([("image", "camera-capture.jpg")] : List (String × String))
        = [("image", img)] := by
  have h := handleProcess_request_valid
    [.capture "camera-capture.jpg" "blob:preview", .select "protanopia"]
    (by decide)
    { pathDeficiency := "protanopia", strengthQuery := "1.0",
      formEntries := [("image", "camera-capture.jpg")] }
    rfl
  exact h

/-- Counterexample to claim C4 as stated: on a failed still-image response
whose structured body carries only the `message` field (value `"oops"`), the
client does not surface that field's text — it displays the fixed fallback
`"Failed to process image"`, because `handleProcess` reads the body's `error`
field, not `message`. -/
theorem stillError_message_field_ignored :
    stillErrorText { errorField := none, messageField := some "oops" }
      = "Failed to process image"
    ∧ (onStillFailure initialState
        { errorField := none, messageField := some "oops" }).errorMessage
      = some "Failed to process image"
    ∧ ("Failed to process image" : String) ≠ "oops" :=
  ⟨rfl, rfl, by decide⟩

/-- Claim C4 (amended): for every failing still-image request whose structured
body carries a non-empty `error` field, the client surfaces that field's text
as the displayed error message (when the field is absent or empty it falls
back to the fixed text `"Failed to process image"`). -/
theorem stillError_surfaces_error_field (s : ClientState) (b : ErrorBody)
    (e : String) (he : b.errorField = some e) (hne : e ≠ "") :
    (onStillFailure s b).errorMessage = some e := by
  simp [onStillFailure, stillErrorText, he, hne]

/-- Witness for claim C4 (amended) at a body whose `error` field is
`"bad image"`. -/
theorem stillError_surfaces_error_field_witness :
    (onStillFailure initialState
      { errorField := some "bad image", messageField := none }).errorMessage
      = some "bad image" :=
  stillError_surfaces_error_field initialState
    { errorField := some "bad image", messageField := none }
    "bad image" rfl (by decide)

/-- Claim C10: `stopVideoStreaming` clears the streaming flag, resets the
processed frame and clears the interval ref, and afterwards no event sequence
that does not contain a new `start` produces any `video_frame` emission. -/
theorem stopVideoStreaming_resets (s : ClientState) (evs : List ClientEvent)
    (hre : ClientEvent.start ∉ evs) :
    (stopVideoStreaming s).isVideoStreaming = false
    ∧ (stopVideoStreaming s).processedVideoFrame = none
    ∧ (stopVideoStreaming s).streamInterval = none
    ∧ (runClient (stopVideoStreaming s) evs).2 = [] :=
  ⟨rfl, rfl, rfl, runClient_no_interval_silent evs (stopVideoStreaming s) rfl hre⟩

/-- Witness for claim C10: stop right after streaming started, then observe a
fully ready tick, another stop and a select — no emission happens. -/
theorem stopVideoStreaming_resets_witness :
    (stopVideoStreaming (startVideoStreaming initialState)).isVideoStreaming = false
    ∧ (stopVideoStreaming (startVideoStreaming initialState)).processedVideoFrame = none
    ∧ (stopVideoStreaming (startVideoStreaming initialState)).streamInterval = none
    ∧ (runClient (stopVideoStreaming (startVideoStreaming initialState))
        [.tick (envWithFrame "data:image/jpeg;base64,AAAA"), .stop,
          .select "tritanopia"]).2 = [] :=
  stopVideoStreaming_resets (startVideoStreaming initialState)
    [.tick (envWithFrame "data:image/jpeg;base64,AAAA"), .stop,
      .select "tritanopia"]
    (by decide)

end CVD
